import Mathlib

/-!
Verification of the paynless-framework AI chat core:
a shallow embedding of `supabase/functions/chat/continue.ts`
(`handleContinuationLoop`) and of
`supabase/functions/_shared/ai_service/anthropic_adapter.ts`
(`AnthropicAdapter.sendMessage`), plus a spec-level model of the
canonical path builder (`createCanonicalPathParams`).

JavaScript falsiness on strings is modelled by comparison with `""`;
nullable fields are modelled with `Option`; thrown `Error`s are
modelled with `Except String`.
-/

/-- A chat message as exchanged with adapters (`{ role, content }`). -/
structure Msg where
  role : String
  content : String
deriving DecidableEq

/-- The fields of `ChatApiRequest` read by the embedded code
(`message`, `messages`, `providerId`, `promptId`,
`max_tokens_to_generate`); the remaining fields of the TS interface are
never read by `handleContinuationLoop` or `AnthropicAdapter.sendMessage`. -/
structure ChatApiRequest where
  message : Option String
  messages : Option (List Msg)
  providerId : String
  promptId : String
  max_tokens_to_generate : Option Int
deriving DecidableEq

/-- Shape of `TokenUsage` as stored on chat messages: numeric fields may be
absent (the loop guards each read with `|| 0`), and `finish_reason` is
optional (the Anthropic adapter never sets it). -/
structure TokenUsage where
  prompt_tokens : Option Nat
  completion_tokens : Option Nat
  total_tokens : Option Nat
  finish_reason : Option String
deriving DecidableEq

/-- Shape of `AdapterResponsePayload`: the normalized assistant message
an adapter returns. `token_usage` is nullable (`TokenUsage | null`). -/
structure AdapterResponsePayload where
  role : String
  content : String
  ai_provider_id : String
  system_prompt_id : Option String
  token_usage : Option TokenUsage
  finish_reason : String
deriving DecidableEq

/-- Constant `MAX_CONTINUATIONS = 4` — max 4 additional calls, for a
total of 5 (`continue.ts` line 9). -/
def MAX_CONTINUATIONS : Nat := 4

/-- Reading of the optional `token_usage.finish_reason` as done by the
continuation loop. -/
def finishReasonOf (p : AdapterResponsePayload) : Option String :=
  p.token_usage.bind TokenUsage.finish_reason

/-- Reading of `token_usage.prompt_tokens` guarded by or-zero, with a
null `token_usage` contributing 0 (the `if (token_usage)` guard). -/
def promptTokensOf (p : AdapterResponsePayload) : Nat :=
  match p.token_usage with
  | some u => u.prompt_tokens.getD 0
  | none => 0

/-- Reading of `token_usage.completion_tokens` guarded by or-zero, with
a null `token_usage` contributing 0. -/
def completionTokensOf (p : AdapterResponsePayload) : Nat :=
  match p.token_usage with
  | some u => u.completion_tokens.getD 0
  | none => 0

/-- The mutable locals of `handleContinuationLoop`:
`currentRequest.messages`, `accumulatedContent`, the two accumulated
token counters, `continuationCount` and `lastResponse`; `trace` records
the provider responses consumed so far, in order (one entry per
`adapter.sendMessage` call). -/
structure ContState where
  currentMessages : List Msg
  accContent : String
  accPrompt : Nat
  accCompletion : Nat
  continuationCount : Nat
  lastResponse : Option AdapterResponsePayload
  trace : List AdapterResponsePayload
deriving DecidableEq

/-- An adapter's `sendMessage` viewed as a total function
`(request, providerApiIdentifier, apiKey) → AdapterResponsePayload`,
modelling every execution in which each provider call returns. -/
def Adapter : Type :=
  ChatApiRequest → String → String → AdapterResponsePayload

/-- One-to-one embedding of the `while (continuationCount <=
MAX_CONTINUATIONS)` loop of `handleContinuationLoop`
(`continue.ts` lines 47–86), as fuel-indexed recursion.  Each iteration
calls the adapter on the current request, accumulates token counts and
content, records the response as `lastResponse`, then either breaks
(`finishReason !== "length" || continuationCount >= MAX_CONTINUATIONS`)
or increments the counter and appends the partial assistant message to
the history.  The loop body can start at most `MAX_CONTINUATIONS + 1`
times, so any fuel ≥ `MAX_CONTINUATIONS + 1` makes the fuel bound
unreachable. -/
def contLoop (adapter : Adapter) (baseReq : ChatApiRequest)
    (providerApiIdentifier apiKey : String) :
    Nat → ContState → ContState
  | 0, s => s
  | fuel + 1, s =>
    if s.continuationCount ≤ MAX_CONTINUATIONS then
      let response :=
        adapter { baseReq with messages := some s.currentMessages }
          providerApiIdentifier apiKey
      let s' : ContState :=
        { s with
          accPrompt := s.accPrompt + promptTokensOf response
          accCompletion := s.accCompletion + completionTokensOf response
          accContent := s.accContent ++ response.content
          lastResponse := some response
          trace := s.trace ++ [response] }
      if finishReasonOf response ≠ some "length" ∨
          MAX_CONTINUATIONS ≤ s.continuationCount then
        s'
      else
        contLoop adapter baseReq providerApiIdentifier apiKey fuel
          { s' with
            continuationCount := s.continuationCount + 1
            currentMessages :=
              s.currentMessages ++ [⟨"assistant", response.content⟩] }
    else s

/-- The locals before the loop starts: empty accumulators, counter 0,
no response yet, and `currentRequest.messages` normalized to `[]` when
absent (`if (!currentRequest.messages) currentRequest.messages = []`). -/
def initialContState (r : ChatApiRequest) : ContState :=
  { currentMessages := r.messages.getD []
    accContent := ""
    accPrompt := 0
    accCompletion := 0
    continuationCount := 0
    lastResponse := none
    trace := [] }

/-- Fuel strictly larger than the maximal number of loop-body entries. -/
def contLoopFuel : Nat := MAX_CONTINUATIONS + 2

/-- The loop's final local state for a given adapter and request. -/
def finalContState (adapter : Adapter) (r : ChatApiRequest)
    (providerApiIdentifier apiKey : String) : ContState :=
  contLoop adapter r providerApiIdentifier apiKey contLoopFuel
    (initialContState r)

/-- The code after the loop (`continue.ts` lines 88–110): throw if no
response was ever received, otherwise return the last response with
`content` replaced by the accumulated content and `token_usage` rebuilt
from the accumulated counters, `total_tokens = prompt + completion`,
and the nested `finish_reason` forced to `"stop"`. -/
def finalizePayload (s : ContState) : Except String AdapterResponsePayload :=
  match s.lastResponse with
  | none =>
    .error "AI provider did not return a response in the continuation loop."
  | some last =>
    .ok { last with
          content := s.accContent
          token_usage := some
            { prompt_tokens := some s.accPrompt
              completion_tokens := some s.accCompletion
              total_tokens := some (s.accPrompt + s.accCompletion)
              finish_reason := some "stop" } }

/-- Embedding of `handleContinuationLoop` (`continue.ts` lines 23–110). -/
def handleContinuationLoop (adapter : Adapter) (initialApiRequest : ChatApiRequest)
    (providerApiIdentifier apiKey : String) :
    Except String AdapterResponsePayload :=
  finalizePayload
    (finalContState adapter initialApiRequest providerApiIdentifier apiKey)

/-- The provider responses consumed by a run, in call order. -/
def consumedResponses (adapter : Adapter) (r : ChatApiRequest)
    (providerApiIdentifier apiKey : String) : List AdapterResponsePayload :=
  (finalContState adapter r providerApiIdentifier apiKey).trace

/-- The number of `adapter.sendMessage` calls a run performs. -/
def continuationCalls (adapter : Adapter) (r : ChatApiRequest)
    (providerApiIdentifier apiKey : String) : Nat :=
  (consumedResponses adapter r providerApiIdentifier apiKey).length

/-- The value of `lastResponse` when the loop exits. -/
def lastProviderResponse (adapter : Adapter) (r : ChatApiRequest)
    (providerApiIdentifier apiKey : String) : Option AdapterResponsePayload :=
  (finalContState adapter r providerApiIdentifier apiKey).lastResponse

/-- In-order concatenation of the contents of a list of responses. -/
def contentsConcat : List AdapterResponsePayload → String
  | [] => ""
  | p :: ps => p.content ++ contentsConcat ps

/-- Sum of the per-call prompt token counts. -/
def sumPromptTokens : List AdapterResponsePayload → Nat
  | [] => 0
  | p :: ps => promptTokensOf p + sumPromptTokens ps

/-- Sum of the per-call completion token counts. -/
def sumCompletionTokens : List AdapterResponsePayload → Nat
  | [] => 0
  | p :: ps => completionTokensOf p + sumCompletionTokens ps

/-!
## AnthropicAdapter.sendMessage
(`anthropic_adapter.ts` lines 45–157), split into the pure phase
before the `fetch` (request construction and validation) and the pure
phase after it (response normalization).
-/

/-- The `modelIdentifier.replace` call with the case-insensitive
anchored regex: an `anthropic-` marker at the start of the identifier
is removed (in any letter case), anything else is kept. -/
def anthropicModelApiName (modelIdentifier : String) : String :=
  if (modelIdentifier.data.take 10).map Char.toLower = "anthropic-".data then
    String.mk (modelIdentifier.data.drop 10)
  else
    modelIdentifier

/-- Merge step `combinedMessages = [...(request.messages ?? [])]` followed by
`if (request.message) push({ role: 'user', content: request.message })`;
an absent or empty (falsy) `message` is not pushed. -/
def combinedMessages (r : ChatApiRequest) : List Msg :=
  r.messages.getD [] ++
    match r.message with
    | some m => if m = "" then [] else [⟨"user", m⟩]
    | none => []

/-- The first `for` loop of `sendMessage`: returns
`(systemPrompt, preliminaryMessages)`.  A `system` message with truthy
content overwrites `systemPrompt` (last one wins); `user`/`assistant`
messages are kept in order; everything else is dropped. -/
def extractSystemAndPrelim (ms : List Msg) : String × List Msg :=
  ms.foldl
    (fun acc m =>
      if m.role = "system" ∧ m.content ≠ "" then (m.content, acc.2)
      else if m.role = "user" ∨ m.role = "assistant" then
        (acc.1, acc.2 ++ [m])
      else acc)
    ("", [])

/-- Flip of the expected role between `user` and `assistant`. -/
def flipRole (expected : String) : String :=
  if expected = "user" then "assistant" else "user"

/-- The second `for` loop of `sendMessage`: keep a message when its
role matches `expectedRole` (then flip the expectation), skip it
otherwise. -/
def alternationFilter : String → List Msg → List Msg
  | _, [] => []
  | expected, m :: ms =>
    if m.role = expected then
      m :: alternationFilter (flipRole expected) ms
    else
      alternationFilter expected ms

/-- The `anthropicMessages` array actually placed in the provider
payload: the user/assistant messages of the merged history, filtered to
strict alternation starting from an expected `user` role. -/
def anthropicMessages (r : ChatApiRequest) : List Msg :=
  alternationFilter "user" (extractSystemAndPrelim (combinedMessages r)).2

/-- The JSON body `sendMessage` posts to
`https://api.anthropic.com/v1/messages`. -/
structure AnthropicPayload where
  model : String
  system : Option String
  messages : List Msg
  max_tokens : Int
deriving DecidableEq

/-- Error message thrown when no valid messages remain after filtering. -/
def noValidMessagesError : String :=
  "Cannot send request to Anthropic: No valid messages to send."

/-- Error message thrown when the last filtered message is not a user
message. -/
def invalidHistoryError : String :=
  "Cannot send request to Anthropic: message history format invalid."

/-- Everything `sendMessage` does before `fetch`
(`anthropic_adapter.ts` lines 50–95): merge, extract the system
prompt, filter to alternation, validate (non-empty, last message from
the user), resolve `max_tokens`
(`request.max_tokens_to_generate && request.max_tokens_to_generate > 0
? it : 4096`), and build the provider payload (`system` is
`systemPrompt || undefined`). -/
def anthropicSendPrep (r : ChatApiRequest) (modelIdentifier : String) :
    Except String AnthropicPayload :=
  let systemPrompt := (extractSystemAndPrelim (combinedMessages r)).1
  let msgs := anthropicMessages r
  if msgs = [] then
    .error noValidMessagesError
  else if msgs.getLast?.map Msg.role ≠ some "user" then
    .error invalidHistoryError
  else
    .ok { model := anthropicModelApiName modelIdentifier
          system := if systemPrompt = "" then none else some systemPrompt
          messages := msgs
          max_tokens :=
            match r.max_tokens_to_generate with
            | some v => if 0 < v then v else 4096
            | none => 4096 }

/-- Shape of `usage` in the Anthropic JSON response (fields may be
absent). -/
structure AnthropicUsage where
  input_tokens : Option Nat
  output_tokens : Option Nat
deriving DecidableEq

/-- The parts of the Anthropic JSON response `sendMessage` reads:
`contentText` is `content[0].text` when `content?.[0]?.type === 'text'`
(otherwise `none`), plus `usage` and `stop_reason`. -/
structure AnthropicJson where
  contentText : Option String
  usage : Option AnthropicUsage
  stop_reason : Option String
deriving DecidableEq

/-- The `switch (jsonResponse.stop_reason)` normalization
(`anthropic_adapter.ts` lines 126–144): starts at `'unknown'`, is only
entered when `stop_reason` is truthy, maps `end_turn`/`stop_sequence`
to `stop`, `max_tokens` to `length`, `tool_use` to `tool_calls`, and
anything else stays `unknown`. -/
def mapStopReason (stop_reason : Option String) : String :=
  match stop_reason with
  | none => "unknown"
  | some s =>
    if s = "" then "unknown"
    else if s = "end_turn" ∨ s = "stop_sequence" then "stop"
    else if s = "max_tokens" then "length"
    else if s = "tool_use" then "tool_calls"
    else "unknown"

/-- Model of the trim call over the character list: leading and
trailing whitespace characters are removed. -/
def strTrim (s : String) : String :=
  String.mk
    (((s.data.dropWhile Char.isWhitespace).reverse.dropWhile
        Char.isWhitespace).reverse)

/-- Error message thrown on an empty assistant message. -/
def emptyResponseError : String := "Received empty response from Anthropic."

/-- Everything `sendMessage` does after a successful `fetch`
(`anthropic_adapter.ts` lines 111–156): extract and trim the text
content (throwing when falsy), build `token_usage` from `usage` (with
`total_tokens = (input || 0) + (output || 0)` and no `finish_reason`
field), and assemble the `AdapterResponsePayload` with
`ai_provider_id = request.providerId` and
`system_prompt_id = promptId !== '__none__' ? promptId : null`. -/
def anthropicProcessResponse (r : ChatApiRequest) (json : AnthropicJson) :
    Except String AdapterResponsePayload :=
  let assistantMessageContent :=
    match json.contentText with
    | some t => strTrim t
    | none => ""
  if assistantMessageContent = "" then
    .error emptyResponseError
  else
    .ok { role := "assistant"
          content := assistantMessageContent
          ai_provider_id := r.providerId
          system_prompt_id :=
            if r.promptId = "__none__" then none else some r.promptId
          token_usage := json.usage.map fun u =>
            { prompt_tokens := u.input_tokens
              completion_tokens := u.output_tokens
              total_tokens := some (u.input_tokens.getD 0 + u.output_tokens.getD 0)
              finish_reason := none }
          finish_reason := mapStopReason json.stop_reason }

/-- Composition of `sendMessage` end to end, with the provider HTTP round trip
abstracted as a function from the posted payload to the JSON it
answers with. -/
def anthropicSendMessage (provider : AnthropicPayload → AnthropicJson)
    (r : ChatApiRequest) (modelIdentifier : String) :
    Except String AdapterResponsePayload :=
  match anthropicSendPrep r modelIdentifier with
  | .error e => .error e
  | .ok payload => anthropicProcessResponse r (provider payload)

/-- Total number of prompt characters in a constructed provider
payload (system prompt plus every message body): the size measure used
to witness that arbitrarily large prompts are still sent. -/
def promptChars (p : AnthropicPayload) : Nat :=
  (p.system.getD "").length + (p.messages.map fun m => m.content.length).sum

/-!
## Canonical Path Builder (spec-modelled)
-/

/-- A source document as described by the spec's data model: id,
`contribution_type`, and the producing model's slug. -/
structure SourceDocument where
  id : String
  contribution_type : String
  model_name : String
deriving DecidableEq

/-- Shape of `CanonicalPathParams` as described by the spec data model. -/
structure CanonicalPathParams where
  contributionType : String
  sourceModelSlugs : Option (List String)
  sourceAnchorType : Option String
  sourceAnchorModelSlug : Option String
  pairedModelSlug : Option String
deriving DecidableEq

/-- Modelled from the spec: `createCanonicalPathParams` lives in
`canonical_context_builder.ts`, which is not among the provided source
files (only docs and checklists reference it).  Per the spec: collect
every model slug across `sourceDocs`, deduplicate, sort
lexicographically ascending into `sourceModelSlugs`; set
`sourceAnchorType` and `sourceAnchorModelSlug` from the explicit
anchor; when exactly one other document besides the anchor
participates, extract its model slug into `pairedModelSlug`, otherwise
leave it undefined. -/
def createCanonicalPathParams (sourceDocs : List SourceDocument)
    (outputType : String) (anchorDoc : SourceDocument) : CanonicalPathParams :=
  let slugs :=
    List.insertionSort (· ≤ ·) (sourceDocs.map SourceDocument.model_name).dedup
  let others := sourceDocs.filter fun d => d.id ≠ anchorDoc.id
  { contributionType := outputType
    sourceModelSlugs := some slugs
    sourceAnchorType := some anchorDoc.contribution_type
    sourceAnchorModelSlug := some anchorDoc.model_name
    pairedModelSlug :=
      match others with
      | [d] => some d.model_name
      | _ => none }

/-!
## Concrete fixtures used to exercise the definitions
-/

/-- A minimal well-formed request: one new user message, empty history. -/
def simpleReq : ChatApiRequest :=
  { message := some "hi"
    messages := some []
    providerId := "prov-1"
    promptId := "__none__"
    max_tokens_to_generate := none }

/-- A provider response whose nested `finish_reason` is `"length"`. -/
def lengthResp : AdapterResponsePayload :=
  { role := "assistant"
    content := "part."
    ai_provider_id := "prov-1"
    system_prompt_id := none
    token_usage := some
      { prompt_tokens := some 10
        completion_tokens := some 5
        total_tokens := some 15
        finish_reason := some "length" }
    finish_reason := "length" }

/-- A provider response whose nested `finish_reason` is `"stop"`, with
distinctive carried fields. -/
def stopResp : AdapterResponsePayload :=
  { role := "assistant"
    content := "end."
    ai_provider_id := "prov-2"
    system_prompt_id := some "sp-9"
    token_usage := some
      { prompt_tokens := some 12
        completion_tokens := some 7
        total_tokens := some 19
        finish_reason := some "stop" }
    finish_reason := "stop" }

/-- An adapter that always reports `"length"`: drives the loop to the
continuation cap. -/
def lengthAdapter : Adapter := fun _ _ _ => lengthResp

/-- An adapter answering `"length"` on the first call (empty history)
and `"stop"` afterwards: a two-call run with token usage
(10, 5) then (12, 7). -/
def twoCallAdapter : Adapter := fun q _ _ =>
  if (q.messages.getD []).length = 0 then lengthResp else stopResp

example : continuationCalls lengthAdapter simpleReq "pid" "key" = 5 := by decide
example : continuationCalls twoCallAdapter simpleReq "pid" "key" = 2 := by decide
example :
    (handleContinuationLoop twoCallAdapter simpleReq "pid" "key").toOption.map
        AdapterResponsePayload.content = some "part.end." := by decide
example :
    (handleContinuationLoop twoCallAdapter simpleReq "pid" "key").toOption.map
        AdapterResponsePayload.token_usage =
      some (some ⟨some 22, some 12, some 34, some "stop"⟩) := by decide
example :
    (handleContinuationLoop lengthAdapter simpleReq "pid" "key").toOption.map
        AdapterResponsePayload.finish_reason = some "length" := by decide
example :
    anthropicSendPrep simpleReq "Anthropic-claude-3-opus" =
      Except.ok
        { model := "claude-3-opus", system := none,
          messages := [⟨"user", "hi"⟩], max_tokens := 4096 } := by rfl
example :
    (createCanonicalPathParams
        [⟨"a", "thesis", "gpt-x"⟩, ⟨"b", "antithesis", "claude-y"⟩]
        "synthesis" ⟨"a", "thesis", "gpt-x"⟩).sourceModelSlugs =
      some ["claude-y", "gpt-x"] := by
  have h : (["gpt-x", "claude-y"] : List String).dedup = ["gpt-x", "claude-y"] := by
    decide
  simp only [createCanonicalPathParams, List.map]
  rw [h]
  simp only [List.insertionSort, List.orderedInsert, Option.some.injEq]
  rw [if_neg (fun hle => by
    have := String.le_iff_toList_le.mp hle
    revert this
    decide)]

/-!
## Loop invariants of `handleContinuationLoop`
-/

theorem contentsConcat_append_singleton (l : List AdapterResponsePayload)
    (p : AdapterResponsePayload) :
    contentsConcat (l ++ [p]) = contentsConcat l ++ p.content := by
  induction l with
  | nil => simp [contentsConcat]
  | cons q l ih => simp [contentsConcat, ih, String.append_assoc]

theorem sumPromptTokens_append_singleton (l : List AdapterResponsePayload)
    (p : AdapterResponsePayload) :
    sumPromptTokens (l ++ [p]) = sumPromptTokens l + promptTokensOf p := by
  induction l with
  | nil => simp [sumPromptTokens]
  | cons q l ih => simp [sumPromptTokens, ih]; omega

theorem sumCompletionTokens_append_singleton (l : List AdapterResponsePayload)
    (p : AdapterResponsePayload) :
    sumCompletionTokens (l ++ [p]) = sumCompletionTokens l + completionTokensOf p := by
  induction l with
  | nil => simp [sumCompletionTokens]
  | cons q l ih => simp [sumCompletionTokens, ih]; omega

/-- Each entry into the loop body consumes one fuel and pushes at most
one response, and the body is entered only while
`continuationCount ≤ MAX_CONTINUATIONS`, so the trace grows by at most
`MAX_CONTINUATIONS + 1 - continuationCount` entries. -/
theorem contLoop_trace_length_le (adapter : Adapter) (r : ChatApiRequest)
    (pid key : String) :
    ∀ (fuel : Nat) (s : ContState),
      ((contLoop adapter r pid key fuel s).trace).length ≤
        s.trace.length + (MAX_CONTINUATIONS + 1 - s.continuationCount) := by
  intro fuel
  induction fuel with
  | zero => intro s; simp [contLoop]
  | succ n ih =>
    intro s
    by_cases h1 : s.continuationCount ≤ MAX_CONTINUATIONS
    · rw [contLoop, if_pos h1]
      by_cases h2 :
          finishReasonOf
              (adapter { r with messages := some s.currentMessages } pid key) ≠
              some "length" ∨
            MAX_CONTINUATIONS ≤ s.continuationCount
      · rw [if_pos h2]
        simp only [List.length_append, List.length_singleton]
        omega
      · rw [if_neg h2]
        refine le_trans (ih _) ?_
        simp only [List.length_append, List.length_singleton]
        push_neg at h2
        omega
    · rw [contLoop, if_neg h1]
      omega

/-- When every provider response reports nested finish reason
`"length"`, the loop body is re-entered until the cap is reached: the
trace grows by exactly `MAX_CONTINUATIONS + 1 - continuationCount`
entries. -/
theorem contLoop_trace_length_eq_of_all_length (adapter : Adapter)
    (r : ChatApiRequest) (pid key : String)
    (hall : ∀ q, finishReasonOf (adapter q pid key) = some "length") :
    ∀ (fuel : Nat) (s : ContState),
      s.continuationCount ≤ MAX_CONTINUATIONS →
      MAX_CONTINUATIONS + 1 - s.continuationCount ≤ fuel →
      ((contLoop adapter r pid key fuel s).trace).length =
        s.trace.length + (MAX_CONTINUATIONS + 1 - s.continuationCount) := by
  intro fuel
  induction fuel with
  | zero => intro s hcount hfuel; omega
  | succ n ih =>
    intro s hcount hfuel
    rw [contLoop, if_pos hcount]
    by_cases hcap : MAX_CONTINUATIONS ≤ s.continuationCount
    · rw [if_pos (Or.inr hcap)]
      simp only [List.length_append, List.length_singleton]
      omega
    · rw [if_neg (by
        push_neg
        exact ⟨by simp [hall], by omega⟩)]
      rw [ih _ (by simp; omega) (by simp; omega)]
      simp only [List.length_append, List.length_singleton]
      omega

/-- While fuel remains for every possible re-entry, a loop started with
`continuationCount ≤ MAX_CONTINUATIONS` always records a last response. -/
theorem contLoop_lastResponse_isSome (adapter : Adapter) (r : ChatApiRequest)
    (pid key : String) :
    ∀ (fuel : Nat) (s : ContState),
      s.continuationCount ≤ MAX_CONTINUATIONS →
      MAX_CONTINUATIONS + 1 - s.continuationCount ≤ fuel →
      ((contLoop adapter r pid key fuel s).lastResponse).isSome = true := by
  intro fuel
  induction fuel with
  | zero => intro s hcount hfuel; omega
  | succ n ih =>
    intro s hcount hfuel
    rw [contLoop, if_pos hcount]
    by_cases h2 :
        finishReasonOf
            (adapter { r with messages := some s.currentMessages } pid key) ≠
            some "length" ∨
          MAX_CONTINUATIONS ≤ s.continuationCount
    · rw [if_pos h2]
      simp
    · rw [if_neg h2]
      push_neg at h2
      exact ih _ (by simp; omega) (by simp; omega)

/-- The trace only grows. -/
theorem contLoop_trace_length_mono (adapter : Adapter) (r : ChatApiRequest)
    (pid key : String) :
    ∀ (fuel : Nat) (s : ContState),
      s.trace.length ≤ ((contLoop adapter r pid key fuel s).trace).length := by
  intro fuel
  induction fuel with
  | zero => intro s; simp [contLoop]
  | succ n ih =>
    intro s
    by_cases h1 : s.continuationCount ≤ MAX_CONTINUATIONS
    · rw [contLoop, if_pos h1]
      by_cases h2 :
          finishReasonOf
              (adapter { r with messages := some s.currentMessages } pid key) ≠
              some "length" ∨
            MAX_CONTINUATIONS ≤ s.continuationCount
      · rw [if_pos h2]; simp
      · rw [if_neg h2]
        refine le_trans ?_ (ih _)
        simp
    · rw [contLoop, if_neg h1]

/-- The loop body runs at least once when it starts below the cap with
fuel available. -/
theorem contLoop_trace_length_pos (adapter : Adapter) (r : ChatApiRequest)
    (pid key : String) (fuel : Nat) (s : ContState)
    (hcount : s.continuationCount ≤ MAX_CONTINUATIONS) (hfuel : 1 ≤ fuel) :
    s.trace.length + 1 ≤ ((contLoop adapter r pid key fuel s).trace).length := by
  obtain ⟨n, rfl⟩ : ∃ n, fuel = n + 1 := ⟨fuel - 1, by omega⟩
  rw [contLoop, if_pos hcount]
  by_cases h2 :
      finishReasonOf
          (adapter { r with messages := some s.currentMessages } pid key) ≠
          some "length" ∨
        MAX_CONTINUATIONS ≤ s.continuationCount
  · rw [if_pos h2]; simp
  · rw [if_neg h2]
    refine le_trans ?_ (contLoop_trace_length_mono adapter r pid key n _)
    simp

/-- The accumulators stay in lock step with the trace: accumulated
content is the concatenation of the consumed contents, and the two
token accumulators are the sums over the consumed responses. -/
theorem contLoop_acc_tracks_trace (adapter : Adapter) (r : ChatApiRequest)
    (pid key : String) :
    ∀ (fuel : Nat) (s : ContState),
      s.accContent = contentsConcat s.trace →
      s.accPrompt = sumPromptTokens s.trace →
      s.accCompletion = sumCompletionTokens s.trace →
      (contLoop adapter r pid key fuel s).accContent =
          contentsConcat (contLoop adapter r pid key fuel s).trace ∧
        (contLoop adapter r pid key fuel s).accPrompt =
          sumPromptTokens (contLoop adapter r pid key fuel s).trace ∧
        (contLoop adapter r pid key fuel s).accCompletion =
          sumCompletionTokens (contLoop adapter r pid key fuel s).trace := by
  intro fuel
  induction fuel with
  | zero => intro s h1 h2 h3; simp [contLoop]; exact ⟨h1, h2, h3⟩
  | succ n ih =>
    intro s h1 h2 h3
    by_cases hc : s.continuationCount ≤ MAX_CONTINUATIONS
    · rw [contLoop, if_pos hc]
      by_cases h4 :
          finishReasonOf
              (adapter { r with messages := some s.currentMessages } pid key) ≠
              some "length" ∨
            MAX_CONTINUATIONS ≤ s.continuationCount
      · rw [if_pos h4]
        refine ⟨?_, ?_, ?_⟩ <;>
          simp [contentsConcat_append_singleton, sumPromptTokens_append_singleton,
            sumCompletionTokens_append_singleton, h1, h2, h3]
      · rw [if_neg h4]
        exact ih _
          (by simp [contentsConcat_append_singleton, h1])
          (by simp [sumPromptTokens_append_singleton, h2])
          (by simp [sumCompletionTokens_append_singleton, h3])
    · rw [contLoop, if_neg hc]
      exact ⟨h1, h2, h3⟩

/-!
## Claims about `handleContinuationLoop`
-/

/-- C1: the adapter's `sendMessage` is called at most
`MAX_CONTINUATIONS + 1 = 5` times regardless of the request, and when
every provider response reports nested `finish_reason = "length"` it is
called exactly `MAX_CONTINUATIONS + 1` times (one initial call plus 4
continuations). -/
theorem handleContinuationLoop_call_count (adapter : Adapter)
    (r : ChatApiRequest) (pid key : String) :
    MAX_CONTINUATIONS + 1 = 5 ∧
    continuationCalls adapter r pid key ≤ MAX_CONTINUATIONS + 1 ∧
    ((∀ q, finishReasonOf (adapter q pid key) = some "length") →
      continuationCalls adapter r pid key = MAX_CONTINUATIONS + 1) := by
  refine ⟨rfl, ?_, ?_⟩
  · have h := contLoop_trace_length_le adapter r pid key contLoopFuel
      (initialContState r)
    simpa [continuationCalls, consumedResponses, finalContState,
      initialContState] using h
  · intro hall
    have h := contLoop_trace_length_eq_of_all_length adapter r pid key hall
      contLoopFuel (initialContState r) (by simp [initialContState, MAX_CONTINUATIONS])
      (by simp [initialContState, contLoopFuel])
    simpa [continuationCalls, consumedResponses, finalContState,
      initialContState] using h

/-- C1 witness: an adapter always reporting `"length"` drives exactly 5
calls. -/
theorem handleContinuationLoop_call_count_witness :
    continuationCalls lengthAdapter simpleReq "pid" "key" =
      MAX_CONTINUATIONS + 1 :=
  (handleContinuationLoop_call_count lengthAdapter simpleReq "pid" "key").2.2
    (fun _ => rfl)

/-- C2: whenever `handleContinuationLoop` returns a payload, the
`finish_reason` the payload reports in its rebuilt `token_usage` — the
field this loop itself consults to decide continuation — is `"stop"`,
even when the loop stopped because the continuation cap was hit while
the last provider call's nested reason was `"length"`.  (The payload's
top-level `finish_reason` field is instead carried over unchanged from
the last provider response — see the frame theorem for C9.) -/
theorem handleContinuationLoop_reports_stop (adapter : Adapter)
    (r : ChatApiRequest) (pid key : String) (p : AdapterResponsePayload)
    (h : handleContinuationLoop adapter r pid key = .ok p) :
    p.token_usage.bind TokenUsage.finish_reason = some "stop" := by
  unfold handleContinuationLoop finalizePayload at h
  cases hl : (finalContState adapter r pid key).lastResponse with
  | none => rw [hl] at h; exact absurd h (by simp)
  | some last =>
    rw [hl] at h
    simp only [Except.ok.injEq] at h
    subst h
    rfl

/-- C2 witness: with the always-`"length"` adapter the cap is hit (the
last call's true nested reason is `"length"`), yet the returned
payload's `token_usage.finish_reason` is `"stop"`. -/
theorem handleContinuationLoop_reports_stop_witness :
    ((AdapterResponsePayload.mk "assistant" "part.part.part.part.part."
        "prov-1" none
        (some ⟨some 50, some 25, some 75, some "stop"⟩)
        "length").token_usage.bind TokenUsage.finish_reason) = some "stop" :=
  handleContinuationLoop_reports_stop lengthAdapter simpleReq "pid" "key"
    (AdapterResponsePayload.mk "assistant" "part.part.part.part.part."
      "prov-1" none (some ⟨some 50, some 25, some 75, some "stop"⟩) "length")
    (by rfl)

/-- C3: the returned payload's `content` is the in-order concatenation
of the consumed responses' contents, its `prompt_tokens` and
`completion_tokens` are the independent sums of the per-call counts,
and its `total_tokens` is `prompt_tokens + completion_tokens`. -/
theorem handleContinuationLoop_accumulates (adapter : Adapter)
    (r : ChatApiRequest) (pid key : String) (p : AdapterResponsePayload)
    (h : handleContinuationLoop adapter r pid key = .ok p) :
    p.content = contentsConcat (consumedResponses adapter r pid key) ∧
    p.token_usage = some
      { prompt_tokens := some (sumPromptTokens (consumedResponses adapter r pid key))
        completion_tokens :=
          some (sumCompletionTokens (consumedResponses adapter r pid key))
        total_tokens :=
          some (sumPromptTokens (consumedResponses adapter r pid key) +
            sumCompletionTokens (consumedResponses adapter r pid key))
        finish_reason := some "stop" } := by
  have hacc := contLoop_acc_tracks_trace adapter r pid key contLoopFuel
    (initialContState r) rfl rfl rfl
  unfold handleContinuationLoop finalizePayload at h
  cases hl : (finalContState adapter r pid key).lastResponse with
  | none => rw [hl] at h; exact absurd h (by simp)
  | some last =>
    rw [hl] at h
    simp only [Except.ok.injEq] at h
    subst h
    unfold finalContState at hacc
    refine ⟨hacc.1, ?_⟩
    simp only [consumedResponses, finalContState]
    rw [hacc.2.1, hacc.2.2]

/-- C3 witness: two consumed calls with `(prompt, completion)` counts
`(10, 5)` and `(12, 7)` yield `prompt_tokens = 22`,
`completion_tokens = 12`, `total_tokens = 34`, and concatenated
content. -/
theorem handleContinuationLoop_accumulates_witness :
    ((AdapterResponsePayload.mk "assistant" "part.end." "prov-2" (some "sp-9")
          (some ⟨some 22, some 12, some 34, some "stop"⟩) "stop").content =
        contentsConcat (consumedResponses twoCallAdapter simpleReq "p" "k") ∧
      (AdapterResponsePayload.mk "assistant" "part.end." "prov-2" (some "sp-9")
          (some ⟨some 22, some 12, some 34, some "stop"⟩)
          "stop").token_usage = some
        { prompt_tokens := some (sumPromptTokens (consumedResponses twoCallAdapter simpleReq "p" "k"))
          completion_tokens :=
            some (sumCompletionTokens (consumedResponses twoCallAdapter simpleReq "p" "k"))
          total_tokens :=
            some (sumPromptTokens (consumedResponses twoCallAdapter simpleReq "p" "k") +
              sumCompletionTokens (consumedResponses twoCallAdapter simpleReq "p" "k"))
          finish_reason := some "stop" }) ∧
    sumPromptTokens (consumedResponses twoCallAdapter simpleReq "p" "k") = 22 ∧
    sumCompletionTokens (consumedResponses twoCallAdapter simpleReq "p" "k") = 12 ∧
    sumPromptTokens (consumedResponses twoCallAdapter simpleReq "p" "k") +
      sumCompletionTokens (consumedResponses twoCallAdapter simpleReq "p" "k") = 34 :=
  ⟨handleContinuationLoop_accumulates twoCallAdapter simpleReq "p" "k"
      (AdapterResponsePayload.mk "assistant" "part.end." "prov-2" (some "sp-9")
        (some ⟨some 22, some 12, some 34, some "stop"⟩) "stop")
      (by rfl),
    by decide, by decide, by decide⟩

/-- C7: `handleContinuationLoop` performs at least one provider call
and, with an adapter whose `sendMessage` returns, never takes the
zero-response error branch (it returns a payload); and the
zero-response branch itself, were it ever reached, raises an error
rather than returning a payload. -/
theorem handleContinuationLoop_at_least_one_call :
    (∀ (adapter : Adapter) (r : ChatApiRequest) (pid key : String),
      1 ≤ continuationCalls adapter r pid key ∧
      (handleContinuationLoop adapter r pid key).isOk = true) ∧
    (∀ s : ContState, s.lastResponse = none →
      finalizePayload s =
        .error "AI provider did not return a response in the continuation loop.") := by
  constructor
  · intro adapter r pid key
    constructor
    · have h := contLoop_trace_length_pos adapter r pid key contLoopFuel
        (initialContState r) (by simp [initialContState, MAX_CONTINUATIONS])
        (by simp [contLoopFuel])
      simpa [continuationCalls, consumedResponses, finalContState,
        initialContState] using h
    · have h := contLoop_lastResponse_isSome adapter r pid key contLoopFuel
        (initialContState r) (by simp [initialContState, MAX_CONTINUATIONS])
        (by simp [initialContState, contLoopFuel])
      obtain ⟨l, hl⟩ := Option.isSome_iff_exists.mp h
      simp only [handleContinuationLoop, finalizePayload, finalContState, hl]
      rfl
  · intro s hnone
    simp [finalizePayload, hnone]

/-- C7 witness: a concrete run performs a first call, and the error
branch applied to a state with no recorded response raises the error. -/
theorem handleContinuationLoop_at_least_one_call_witness :
    1 ≤ continuationCalls twoCallAdapter simpleReq "x" "y" ∧
    finalizePayload (initialContState simpleReq) =
      .error "AI provider did not return a response in the continuation loop." :=
  ⟨(handleContinuationLoop_at_least_one_call.1 twoCallAdapter simpleReq "x" "y").1,
    handleContinuationLoop_at_least_one_call.2 (initialContState simpleReq) rfl⟩

/-- C9: a returned payload is the last provider response with only
`content` and `token_usage` replaced: `role`, `ai_provider_id`,
`system_prompt_id` and the payload's own top-level `finish_reason` are
exactly the last provider call's values, and only the `finish_reason`
nested inside the rebuilt `token_usage` is set to `"stop"`. -/
theorem handleContinuationLoop_frame (adapter : Adapter)
    (r : ChatApiRequest) (pid key : String) (p : AdapterResponsePayload)
    (h : handleContinuationLoop adapter r pid key = .ok p) :
    (lastProviderResponse adapter r pid key).map AdapterResponsePayload.role =
        some p.role ∧
    (lastProviderResponse adapter r pid key).map
        AdapterResponsePayload.ai_provider_id = some p.ai_provider_id ∧
    (lastProviderResponse adapter r pid key).map
        AdapterResponsePayload.system_prompt_id = some p.system_prompt_id ∧
    (lastProviderResponse adapter r pid key).map
        AdapterResponsePayload.finish_reason = some p.finish_reason ∧
    p.token_usage.bind TokenUsage.finish_reason = some "stop" := by
  unfold handleContinuationLoop finalizePayload at h
  cases hl : (finalContState adapter r pid key).lastResponse with
  | none => rw [hl] at h; exact absurd h (by simp)
  | some last =>
    rw [hl] at h
    simp only [Except.ok.injEq] at h
    subst h
    simp [lastProviderResponse, hl]

/-- C9 witness: in a two-call run whose last response carries
distinctive `ai_provider_id`, `system_prompt_id` and a top-level
`finish_reason` of `"stop"`, all four fields are carried over
unchanged while the nested reason is `"stop"`. -/
theorem handleContinuationLoop_frame_witness :
    (lastProviderResponse twoCallAdapter simpleReq "q" "w").map
        AdapterResponsePayload.role =
      some (AdapterResponsePayload.mk "assistant" "part.end." "prov-2"
          (some "sp-9") (some ⟨some 22, some 12, some 34, some "stop"⟩)
          "stop").role ∧
    (lastProviderResponse twoCallAdapter simpleReq "q" "w").map
        AdapterResponsePayload.ai_provider_id =
      some (AdapterResponsePayload.mk "assistant" "part.end." "prov-2"
          (some "sp-9") (some ⟨some 22, some 12, some 34, some "stop"⟩)
          "stop").ai_provider_id ∧
    (lastProviderResponse twoCallAdapter simpleReq "q" "w").map
        AdapterResponsePayload.system_prompt_id =
      some (AdapterResponsePayload.mk "assistant" "part.end." "prov-2"
          (some "sp-9") (some ⟨some 22, some 12, some 34, some "stop"⟩)
          "stop").system_prompt_id ∧
    (lastProviderResponse twoCallAdapter simpleReq "q" "w").map
        AdapterResponsePayload.finish_reason =
      some (AdapterResponsePayload.mk "assistant" "part.end." "prov-2"
          (some "sp-9") (some ⟨some 22, some 12, some 34, some "stop"⟩)
          "stop").finish_reason ∧
    (AdapterResponsePayload.mk "assistant" "part.end." "prov-2" (some "sp-9")
        (some ⟨some 22, some 12, some 34, some "stop"⟩)
        "stop").token_usage.bind TokenUsage.finish_reason = some "stop" :=
  handleContinuationLoop_frame twoCallAdapter simpleReq "q" "w"
    (AdapterResponsePayload.mk "assistant" "part.end." "prov-2" (some "sp-9")
      (some ⟨some 22, some 12, some 34, some "stop"⟩) "stop")
    (by rfl)

/-!
## Claims about `AnthropicAdapter.sendMessage`
-/

/-- Strict role alternation starting from an expected role. -/
def altFrom : String → List Msg → Bool
  | _, [] => true
  | expected, m :: ms => m.role == expected && altFrom (flipRole expected) ms

/-- The alternation filter produces a strictly alternating sequence
starting from the expected role. -/
theorem altFrom_alternationFilter (ms : List Msg) :
    ∀ expected, altFrom expected (alternationFilter expected ms) = true := by
  induction ms with
  | nil => intro expected; rfl
  | cons m ms ih =>
    intro expected
    rw [alternationFilter]
    by_cases hm : m.role = expected
    · rw [if_pos hm, altFrom]
      simp [hm, ih]
    · rw [if_neg hm]
      exact ih expected

/-- The value `p.finish_reason` takes in a successful
`anthropicProcessResponse`. -/
theorem anthropicProcessResponse_finish_reason (r : ChatApiRequest)
    (json : AnthropicJson) (p : AdapterResponsePayload)
    (h : anthropicProcessResponse r json = .ok p) :
    p.finish_reason = mapStopReason json.stop_reason := by
  simp only [anthropicProcessResponse] at h
  split at h
  · exact absurd h (by simp)
  · simp only [Except.ok.injEq] at h
    subst h
    rfl

/-- C5: every payload `sendMessage` builds from a provider response
has `finish_reason` in the fixed vocabulary
`stop | length | tool_calls | unknown`, with `end_turn` and
`stop_sequence` mapping to `stop`, `max_tokens` to `length`,
`tool_use` to `tool_calls`, and any other or absent `stop_reason`
mapping to `unknown`. -/
theorem anthropic_finish_reason_normalized (r : ChatApiRequest)
    (json : AnthropicJson) (p : AdapterResponsePayload)
    (h : anthropicProcessResponse r json = .ok p) :
    (p.finish_reason = "stop" ∨ p.finish_reason = "length" ∨
      p.finish_reason = "tool_calls" ∨ p.finish_reason = "unknown") ∧
    ((json.stop_reason = some "end_turn" ∨
        json.stop_reason = some "stop_sequence") → p.finish_reason = "stop") ∧
    (json.stop_reason = some "max_tokens" → p.finish_reason = "length") ∧
    (json.stop_reason = some "tool_use" → p.finish_reason = "tool_calls") ∧
    (∀ s, json.stop_reason = some s → s ≠ "end_turn" → s ≠ "stop_sequence" →
      s ≠ "max_tokens" → s ≠ "tool_use" → p.finish_reason = "unknown") ∧
    (json.stop_reason = none → p.finish_reason = "unknown") := by
  have hfr := anthropicProcessResponse_finish_reason r json p h
  refine ⟨?_, ?_, ?_, ?_, ?_, ?_⟩
  · rw [hfr]
    cases hsr : json.stop_reason with
    | none => simp [mapStopReason]
    | some s =>
      simp only [mapStopReason]
      split_ifs <;> simp
  · rintro (hsr | hsr) <;> simp [hfr, hsr, mapStopReason]
  · intro hsr; simp [hfr, hsr, mapStopReason]
  · intro hsr; simp [hfr, hsr, mapStopReason]
  · intro s hsr h1 h2 h3 h4
    rw [hfr, hsr]
    simp only [mapStopReason]
    by_cases hempty : s = ""
    · rw [if_pos hempty]
    · rw [if_neg hempty, if_neg (by simp [h1, h2]), if_neg h3, if_neg h4]
  · intro hsr; simp [hfr, hsr, mapStopReason]

/-- C5 witness: a `max_tokens` stop reason is reported as `"length"`
and is inside the vocabulary. -/
theorem anthropic_finish_reason_normalized_witness :
    ((AdapterResponsePayload.mk "assistant" "hello" "prov-1" none
        (some ⟨some 3, some 4, some 7, none⟩) "length").finish_reason = "stop" ∨
      (AdapterResponsePayload.mk "assistant" "hello" "prov-1" none
        (some ⟨some 3, some 4, some 7, none⟩) "length").finish_reason = "length" ∨
      (AdapterResponsePayload.mk "assistant" "hello" "prov-1" none
        (some ⟨some 3, some 4, some 7, none⟩) "length").finish_reason = "tool_calls" ∨
      (AdapterResponsePayload.mk "assistant" "hello" "prov-1" none
        (some ⟨some 3, some 4, some 7, none⟩) "length").finish_reason = "unknown") ∧
    (AdapterResponsePayload.mk "assistant" "hello" "prov-1" none
      (some ⟨some 3, some 4, some 7, none⟩) "length").finish_reason = "length" :=
  ⟨(anthropic_finish_reason_normalized simpleReq
      ⟨some "hello", some ⟨some 3, some 4⟩, some "max_tokens"⟩
      (AdapterResponsePayload.mk "assistant" "hello" "prov-1" none
        (some ⟨some 3, some 4, some 7, none⟩) "length") (by rfl)).1,
    (anthropic_finish_reason_normalized simpleReq
      ⟨some "hello", some ⟨some 3, some 4⟩, some "max_tokens"⟩
      (AdapterResponsePayload.mk "assistant" "hello" "prov-1" none
        (some ⟨some 3, some 4, some 7, none⟩) "length") (by rfl)).2.2.1 rfl⟩

/-- C6: the message sequence `sendMessage` posts to the provider is in
strict user/assistant alternation starting with a user message and
ending with a user message; the new `message`, when present and
non-empty, is appended to the history as a user message; and when the
filtered sequence is empty or does not end with a user message the
adapter raises an error instead of sending. -/
theorem anthropic_message_structure (r : ChatApiRequest) (mid : String) :
    (∀ p, anthropicSendPrep r mid = .ok p →
      altFrom "user" p.messages = true ∧
      p.messages ≠ [] ∧
      p.messages.getLast?.map Msg.role = some "user") ∧
    (∀ m, r.message = some m → m ≠ "" →
      combinedMessages r = r.messages.getD [] ++ [⟨"user", m⟩]) ∧
    ((anthropicMessages r = [] ∨
        (anthropicMessages r).getLast?.map Msg.role ≠ some "user") →
      (anthropicSendPrep r mid).isOk = false) := by
  refine ⟨?_, ?_, ?_⟩
  · intro p h
    simp only [anthropicSendPrep] at h
    by_cases h1 : anthropicMessages r = []
    · rw [if_pos h1] at h
      exact absurd h (by simp)
    · rw [if_neg h1] at h
      by_cases h2 : (anthropicMessages r).getLast?.map Msg.role ≠ some "user"
      · rw [if_pos h2] at h
        exact absurd h (by simp)
      · rw [if_neg h2] at h
        simp only [Except.ok.injEq] at h
        subst h
        push_neg at h2
        exact ⟨altFrom_alternationFilter _ "user", h1, h2⟩
  · intro m hm hne
    simp [combinedMessages, hm, hne]
  · intro hbad
    by_cases h1 : anthropicMessages r = []
    · simp only [anthropicSendPrep, if_pos h1]
      rfl
    · rcases hbad with h2 | h2
      · exact absurd h2 h1
      · simp only [anthropicSendPrep, if_neg h1, if_pos h2]
        rfl

/-- C6 witness: a one-user-message request passes all three structural
checks, and a request with no usable messages is rejected before
sending. -/
theorem anthropic_message_structure_witness :
    (altFrom "user" [⟨"user", "hi"⟩] = true ∧
      ([⟨"user", "hi"⟩] : List Msg) ≠ [] ∧
      ([⟨"user", "hi"⟩] : List Msg).getLast?.map Msg.role = some "user") ∧
    combinedMessages simpleReq = [] ++ [⟨"user", "hi"⟩] ∧
    (anthropicSendPrep
        (ChatApiRequest.mk none (some []) "prov-1" "__none__" none)
        "anthropic-claude").isOk = false := by
  refine ⟨?_, ?_, ?_⟩
  · have h := (anthropic_message_structure simpleReq "anthropic-claude").1
      (AnthropicPayload.mk "claude" none [⟨"user", "hi"⟩] 4096) (by rfl)
    exact h
  · exact (anthropic_message_structure simpleReq "anthropic-claude").2.1 "hi" rfl
      (by decide)
  · exact (anthropic_message_structure
        (ChatApiRequest.mk none (some []) "prov-1" "__none__" none)
        "anthropic-claude").2.2 (Or.inl (by decide))

/-- C10: a successful `sendMessage` posts `max_tokens = 4096` when
`max_tokens_to_generate` is absent, zero or negative, and posts exactly
`max_tokens_to_generate` when it is positive. -/
theorem anthropic_max_tokens_default (r : ChatApiRequest) (mid : String)
    (p : AnthropicPayload) (h : anthropicSendPrep r mid = .ok p) :
    (r.max_tokens_to_generate = none → p.max_tokens = 4096) ∧
    (∀ v, r.max_tokens_to_generate = some v → v ≤ 0 → p.max_tokens = 4096) ∧
    (∀ v, r.max_tokens_to_generate = some v → 0 < v → p.max_tokens = v) := by
  simp only [anthropicSendPrep] at h
  by_cases h1 : anthropicMessages r = []
  · rw [if_pos h1] at h
    exact absurd h (by simp)
  · rw [if_neg h1] at h
    by_cases h2 : (anthropicMessages r).getLast?.map Msg.role ≠ some "user"
    · rw [if_pos h2] at h
      exact absurd h (by simp)
    · rw [if_neg h2] at h
      simp only [Except.ok.injEq] at h
      subst h
      refine ⟨?_, ?_, ?_⟩
      · intro hmt; simp [hmt]
      · intro v hmt hv
        simp only [hmt]
        rw [if_neg (by omega)]
      · intro v hmt hv
        simp only [hmt]
        rw [if_pos hv]

/-- C10 witness: absent, negative and positive
`max_tokens_to_generate` produce `max_tokens` of 4096, 4096 and 1000
respectively. -/
theorem anthropic_max_tokens_default_witness :
    (AnthropicPayload.mk "claude" none [⟨"user", "hi"⟩] 4096).max_tokens = 4096 ∧
    (AnthropicPayload.mk "claude" none [⟨"user", "hi"⟩] 4096).max_tokens = 4096 ∧
    (AnthropicPayload.mk "claude" none [⟨"user", "hi"⟩] 1000).max_tokens = 1000 :=
  ⟨(anthropic_max_tokens_default simpleReq "anthropic-claude"
      (AnthropicPayload.mk "claude" none [⟨"user", "hi"⟩] 4096) (by rfl)).1 rfl,
    (anthropic_max_tokens_default
      { simpleReq with max_tokens_to_generate := some (-5) } "anthropic-claude"
      (AnthropicPayload.mk "claude" none [⟨"user", "hi"⟩] 4096) (by rfl)).2.1
      (-5) rfl (by omega),
    (anthropic_max_tokens_default
      { simpleReq with max_tokens_to_generate := some 1000 } "anthropic-claude"
      (AnthropicPayload.mk "claude" none [⟨"user", "hi"⟩] 1000) (by rfl)).2.2
      1000 rfl (by omega)⟩

/-!
## C4: input-token budget at the adapter boundary
-/

/-- Number of characters in the oversized test prompt. -/
def bigN : Nat := 10000000

/-- A 10-million-character message body. -/
def bigContent : String := String.mk (List.replicate bigN 'a')

/-- A request whose only message is the 10-million-character body. -/
def bigRequest : ChatApiRequest :=
  { message := some bigContent
    messages := some []
    providerId := "prov-1"
    promptId := "__none__"
    max_tokens_to_generate := none }

theorem bigContent_ne_empty : bigContent ≠ "" := by
  intro h
  have hlen := congrArg String.length h
  rw [show bigContent.length = (List.replicate bigN 'a').length from rfl,
    List.length_replicate] at hlen
  exact absurd hlen (by decide)

/-- A request with an empty history and a single non-empty new message
is prepped into a provider payload carrying exactly that message,
whatever its size. -/
theorem anthropicSendPrep_single_user (s : String) (hs : s ≠ "")
    (pid pr mid : String) :
    anthropicSendPrep ⟨some s, some [], pid, pr, none⟩ mid =
      .ok ⟨anthropicModelApiName mid, none, [⟨"user", s⟩], 4096⟩ := by
  have hc : combinedMessages ⟨some s, some [], pid, pr, none⟩ = [⟨"user", s⟩] := by
    simp [combinedMessages, hs]
  have he : extractSystemAndPrelim [⟨"user", s⟩] = ("", [⟨"user", s⟩]) := by
    simp [extractSystemAndPrelim]
  have hm : anthropicMessages ⟨some s, some [], pid, pr, none⟩ = [⟨"user", s⟩] := by
    simp [anthropicMessages, hc, he, alternationFilter]
  simp [anthropicSendPrep, hm, hc, he]

/-- The prompt-character measure of a single-user-message payload is
the message's length, whatever it is. -/
theorem promptChars_single_user (s : String) (m : String) :
    promptChars ⟨m, none, [⟨"user", s⟩], 4096⟩ = s.length := by
  show ("" : String).length + (s.length + 0) = s.length
  rw [show ("" : String).length = 0 from rfl, Nat.add_zero, Nat.zero_add]

theorem bigContent_length : bigContent.length = bigN := by
  rw [show bigContent.length = (List.replicate bigN 'a').length from rfl,
    List.length_replicate]

/-- C4 counterexample: a request whose fully constructed prompt is
10,000,000 characters — exceeding any `context_window_tokens` budget (a
200,000-token window at one or more characters per token included) —
is still prepped into a provider call carrying the full prompt, instead
of failing with a critical error before the call. -/
theorem anthropic_sends_oversized_prompt :
    (anthropicSendPrep bigRequest
        "anthropic-claude-3-opus-20240229").toOption.map promptChars =
      some 10000000 ∧
    (200000 : Nat) < 10000000 := by
  constructor
  · rw [show anthropicSendPrep bigRequest "anthropic-claude-3-opus-20240229" =
        Except.ok ⟨anthropicModelApiName "anthropic-claude-3-opus-20240229",
          none, [⟨"user", bigContent⟩], 4096⟩ from
      anthropicSendPrep_single_user bigContent bigContent_ne_empty "prov-1"
        "__none__" "anthropic-claude-3-opus-20240229"]
    rw [show (Except.ok (ε := String)
        (⟨anthropicModelApiName "anthropic-claude-3-opus-20240229", none,
          [⟨"user", bigContent⟩], 4096⟩ : AnthropicPayload)).toOption.map
          promptChars =
      some (promptChars ⟨anthropicModelApiName
          "anthropic-claude-3-opus-20240229", none, [⟨"user", bigContent⟩],
          4096⟩) from rfl]
    rw [promptChars_single_user bigContent, bigContent_length]
    rfl
  · decide

/-- C4 (amended): `AnthropicAdapter.sendMessage` performs no pre-flight
input-token-budget validation at all — the only errors it can raise
before the provider call are the two message-format errors, neither of
which depends on prompt size, and every successful preparation sends
the complete filtered prompt unmodified, never a truncated one. -/
theorem anthropic_no_preflight_budget_check (r : ChatApiRequest) (mid : String) :
    (∀ e, anthropicSendPrep r mid = .error e →
      e = noValidMessagesError ∨ e = invalidHistoryError) ∧
    (∀ p, anthropicSendPrep r mid = .ok p → p.messages = anthropicMessages r) := by
  constructor
  · intro e he
    simp only [anthropicSendPrep] at he
    by_cases h1 : anthropicMessages r = []
    · rw [if_pos h1] at he
      simp only [Except.error.injEq] at he
      exact Or.inl he.symm
    · rw [if_neg h1] at he
      by_cases h2 : (anthropicMessages r).getLast?.map Msg.role ≠ some "user"
      · rw [if_pos h2] at he
        simp only [Except.error.injEq] at he
        exact Or.inr he.symm
      · rw [if_neg h2] at he
        exact absurd he (by simp)
  · intro p hp
    simp only [anthropicSendPrep] at hp
    by_cases h1 : anthropicMessages r = []
    · rw [if_pos h1] at hp
      exact absurd hp (by simp)
    · rw [if_neg h1] at hp
      by_cases h2 : (anthropicMessages r).getLast?.map Msg.role ≠ some "user"
      · rw [if_pos h2] at hp
        exact absurd hp (by simp)
      · rw [if_neg h2] at hp
        simp only [Except.ok.injEq] at hp
        subst hp
        rfl

/-- C4 (amended) witness: a request with no usable message fails with
the first message-format error, and a well-formed request's payload
carries the full filtered message list. -/
theorem anthropic_no_preflight_budget_check_witness :
    (noValidMessagesError = noValidMessagesError ∨
      noValidMessagesError = invalidHistoryError) ∧
    (AnthropicPayload.mk "claude" none [⟨"user", "hi"⟩] 4096).messages =
      anthropicMessages simpleReq :=
  ⟨(anthropic_no_preflight_budget_check
      (ChatApiRequest.mk none (some []) "prov-1" "__none__" none) "m").1
      noValidMessagesError (by rfl),
    (anthropic_no_preflight_budget_check simpleReq "anthropic-claude").2
      (AnthropicPayload.mk "claude" none [⟨"user", "hi"⟩] 4096) (by rfl)⟩

/-!
## C8: canonical path builder
-/

/-- C8: for every input sequence of source documents — in any order
and with any duplicates — the `sourceModelSlugs` field returned by
`createCanonicalPathParams` is sorted ascending lexicographically and
contains no duplicate entries. -/
theorem createCanonicalPathParams_slugs_sorted_nodup
    (sourceDocs : List SourceDocument) (outputType : String)
    (anchorDoc : SourceDocument) :
    ∃ l, (createCanonicalPathParams sourceDocs outputType
        anchorDoc).sourceModelSlugs = some l ∧
      l.Sorted (· ≤ ·) ∧ l.Nodup := by
  refine ⟨_, rfl, ?_, ?_⟩
  · exact List.sorted_insertionSort _ _
  · exact ((List.perm_insertionSort _ _).nodup_iff).mpr (List.nodup_dedup _)
